import Mathlib

/-
Verification of the Tug-War match state machine, rope-resolution loop and
settlement trigger against the repository sources.

The definitions below are shallow embeddings of the TypeScript sources:
  - the shared game state and the 50ms game loop of components/Game.tsx
    (the setInterval body computing movement, win detection, debounce and
    write-back),
  - the join / start / countdown handlers of pages/Home.tsx,
  - the renderer-side handlers handlePull, handleTimeUp and handleWin of
    game/scenes/GameScene.ts,
  - BlockchainService.finishGame and the player1-only settlement trigger.
Positions are modelled as rationals, time stamps as integers (milliseconds).
-/

namespace TugWar

/-- Entry of the players record: role is the string role tag used by the
sources, isReady mirrors the staking readiness flag. -/
structure Player where
  role : String
  isReady : Bool
deriving DecidableEq, Repr

/-- Shared game state replicated between clients, mirroring the GameState
interface of the sources. The players record is modelled as an association
list from wallet address to Player. -/
structure GameState where
  players : List (String × Player)
  roomId : Option String
  isStarted : Bool
  ropePosition : ℚ
  player1Pulling : Bool
  player2Pulling : Bool
  winner : Option String
  gameFinishedOnBlockchain : Bool
  showStartButton : Bool
  countdown : Option Int
  isCountingDown : Bool
deriving DecidableEq, Repr

/-- Fixed center used by the game loop (centerX = 600 for 1200px width). -/
def centerX : ℚ := 600

/-- Maximum rope distance from the center. -/
def maxDistance : ℚ := 350

/-- Distance units moved per resolved pull. -/
def pullForce : ℚ := 10

/-- Win threshold: 85 percent of the maximum distance. -/
def winDistance : ℚ := maxDistance * (85 / 100)

/-- The movement step of the game loop: one clamped pull step to the left
when only player1 pulls, one clamped step to the right when only player2
pulls, no movement otherwise. -/
def movedPosition (p1 p2 : Bool) (pos : ℚ) : ℚ :=
  let pos1 := if p1 && !p2 then max (centerX - maxDistance) (pos - pullForce) else pos
  if !p1 && p2 then min (centerX + maxDistance) (pos1 + pullForce) else pos1

/-- Whether the game loop registered a movement this tick (the shouldUpdate
variable of the loop body). -/
def shouldUpdateFlag (p1 p2 : Bool) : Bool :=
  (p1 && !p2) || (!p1 && p2)

/-- Position-based win detection of the game loop. -/
def tickWinner (pos : ℚ) : Option String :=
  if pos ≤ centerX - winDistance then some "player1"
  else if centerX + winDistance ≤ pos then some "player2"
  else none

/-- State carried by one client running the game loop: the shared state
snapshot plus the timestamp of the last write (lastUpdateRef). -/
structure LoopFrame where
  state : GameState
  lastUpdate : Int
deriving DecidableEq, Repr

/-- One iteration of the 50ms game loop of components/Game.tsx: compute the
moved position and the position-based winner, and perform the write-back
(clearing both pulling flags) only when something moved or a winner was
found and at least 50ms have passed since the last write. -/
def gameTick (f : LoopFrame) (now : Int) : LoopFrame :=
  let s := f.state
  let newPos := movedPosition s.player1Pulling s.player2Pulling s.ropePosition
  let w := tickWinner newPos
  if shouldUpdateFlag s.player1Pulling s.player2Pulling || w.isSome then
    if now - f.lastUpdate < 50 then f
    else
      { state :=
          { s with
            ropePosition := newPos,
            winner := if w.isSome then w else s.winner,
            isStarted := if w.isSome then false else s.isStarted,
            player1Pulling := false,
            player2Pulling := false,
            countdown := if w.isSome then none else s.countdown,
            isCountingDown := if w.isSome then false else s.isCountingDown },
        lastUpdate := now }
  else f

/-- Fresh state for a room, as initialized by Home.tsx (rope at center). -/
def initialState (rid : Option String) : GameState :=
  { players := []
    roomId := rid
    isStarted := false
    ropePosition := 600
    player1Pulling := false
    player2Pulling := false
    winner := none
    gameFinishedOnBlockchain := false
    showStartButton := false
    countdown := none
    isCountingDown := false }

/-- Outcome of a join attempt, as surfaced by the handlePlayerJoin effect of
Home.tsx. -/
inductive JoinOutcome
  | alreadyPresent
  | joinedAsPlayer1
  | joinedAsPlayer2
  | rejectedRoomFull
deriving DecidableEq, Repr

/-- Lower-casing of a wallet address (toLowerCase in the sources), defined
character by character. -/
def lowerAddr (a : String) : String :=
  String.mk (a.data.map Char.toLower)

/-- Case-insensitive lookup of a player by wallet address, mirroring the
toLowerCase comparison used by the join handler. -/
def findPlayerByAddress (players : List (String × Player)) (addr : String) :
    Option (String × Player) :=
  players.find? (fun q => lowerAddr q.1 == lowerAddr addr)

/-- Whether some player of the record already holds the player2 role. -/
def hasPlayer2 (players : List (String × Player)) : Bool :=
  players.any (fun q => q.2.role == "player2")

/-- Record update players[addr] := p: overwrite the entry when the exact key
is present, append otherwise. -/
def recordSet (players : List (String × Player)) (addr : String) (p : Player) :
    List (String × Player) :=
  if players.any (fun q => q.1 == addr) then
    players.map (fun q => if q.1 == addr then (addr, p) else q)
  else players ++ [(addr, p)]

/-- The join handler of Home.tsx: a no-op when the address is already
present (case-insensitively), first joiner becomes player1, a second joiner
becomes player2 when nobody holds that role yet, otherwise the join is
rejected as room-full without touching the state. -/
def handlePlayerJoin (s : GameState) (addr : String) (rid : Option String) :
    GameState × JoinOutcome :=
  match findPlayerByAddress s.players addr with
  | some _ => (s, .alreadyPresent)
  | none =>
    if s.players.length > 0 then
      if hasPlayer2 s.players then (s, .rejectedRoomFull)
      else
        ({ s with
            players := recordSet s.players addr { role := "player2", isReady := false },
            showStartButton := false,
            countdown := none,
            isCountingDown := false,
            gameFinishedOnBlockchain := false }, .joinedAsPlayer2)
    else
      ({ s with
          players := recordSet s.players addr { role := "player1", isReady := false },
          roomId := rid,
          showStartButton := false,
          countdown := none,
          isCountingDown := false,
          gameFinishedOnBlockchain := false }, .joinedAsPlayer1)

/-- The start-button handler of Home.tsx: begin the 3-second countdown
without starting the game yet. -/
def handleStartGame (s : GameState) : GameState :=
  { s with
    showStartButton := false,
    isStarted := false,
    countdown := some 3,
    isCountingDown := true }

/-- JavaScript prevState.countdown || 3: undefined and 0 are both falsy. -/
def jsCountdownOrThree (v : Option Int) : Int :=
  match v with
  | none => 3
  | some x => if x = 0 then 3 else x

/-- One 1-second countdown tick of Home.tsx: decrement the countdown; when
it reaches 0 clear it, stop counting down and start the game. No other field
is touched. -/
def countdownTick (s : GameState) : GameState :=
  let newCountdown := jsCountdownOrThree s.countdown - 1
  if newCountdown ≤ 0 then
    { s with isStarted := true, isCountingDown := false, countdown := none }
  else
    { s with countdown := some newCountdown }

/-- Partial state update emitted by the renderer through updateCallback
(spread onto the previous state); none means the field is absent from the
update object. -/
structure GameUpdate where
  isStarted : Option Bool := none
  ropePosition : Option ℚ := none
  player1Pulling : Option Bool := none
  player2Pulling : Option Bool := none
  winner : Option (Option String) := none
  countdown : Option (Option Int) := none
  isCountingDown : Option Bool := none
deriving DecidableEq, Repr

/-- Application of a partial update to the shared state, mirroring the
object-spread merge setGameState(prev => (prev spread updates)). -/
def applyUpdate (s : GameState) (u : GameUpdate) : GameState :=
  { s with
    isStarted := u.isStarted.getD s.isStarted,
    ropePosition := u.ropePosition.getD s.ropePosition,
    player1Pulling := u.player1Pulling.getD s.player1Pulling,
    player2Pulling := u.player2Pulling.getD s.player2Pulling,
    winner := u.winner.getD s.winner,
    countdown := u.countdown.getD s.countdown,
    isCountingDown := u.isCountingDown.getD s.isCountingDown }

/-- Local pulling flags of the GameScene (currentPlayer1Pulling and
currentPlayer2Pulling). -/
structure PullLocal where
  player1Pulling : Bool
  player2Pulling : Bool
deriving DecidableEq, Repr

/-- The keypress handler handlePull of GameScene: when not throttled and the
local player is not already marked as pulling, set the local flag for the
player's own role, emit both local flags as a state update, and reset the
local flags. Returns the emitted update (none when nothing was sent) and the
local flags after the call. -/
def handlePull (role : String) (loc : PullLocal) (throttled : Bool) :
    Option GameUpdate × PullLocal :=
  if throttled then (none, loc)
  else if role == "player1" && loc.player1Pulling then (none, loc)
  else if role == "player2" && loc.player2Pulling then (none, loc)
  else
    let loc1 :=
      if role == "player1" then { loc with player1Pulling := true }
      else if role == "player2" then { loc with player2Pulling := true }
      else loc
    (some { player1Pulling := some loc1.player1Pulling,
            player2Pulling := some loc1.player2Pulling },
     { player1Pulling := false, player2Pulling := false })

/-- Winner chosen by handleTimeUp of GameScene when the 60s timer expires:
player1 when the rope is at or left of center, player2 otherwise. -/
def handleTimeUpWinner (ropePos : ℚ) : String :=
  if ropePos - centerX ≤ 0 then "player1" else "player2"

/-- The full state update emitted by handleTimeUp through updateCallback. -/
def handleTimeUpUpdate (ropePos : ℚ) : GameUpdate :=
  { winner := some (some (handleTimeUpWinner ropePos)),
    isStarted := some false,
    player1Pulling := some false,
    player2Pulling := some false,
    countdown := some none,
    isCountingDown := some false }

/-- Final rope position written by handleWin of GameScene. -/
def handleWinFinalRopePosition (w : String) : ℚ :=
  if w == "player1" then 300 else 900

/-- The state update emitted at the end of handleWin of GameScene. -/
def handleWinUpdate (w : String) : GameUpdate :=
  { isStarted := some false,
    winner := some (some w),
    player1Pulling := some false,
    player2Pulling := some false,
    ropePosition := some (handleWinFinalRopePosition w),
    countdown := some none,
    isCountingDown := some false }

/-- Outcome of one attempted contract call. -/
inductive FinishOutcome
  | success
  | failure
deriving DecidableEq, Repr

/-- Per-process settlement-trigger state across all observing clients:
latch i is client i's finishGameCalledRef, sharedFinished is the replicated
gameFinishedOnBlockchain flag (published only on success), calls counts how
often BlockchainService.finishGame was invoked. -/
structure FinishSystem where
  latch : Nat → Bool
  sharedFinished : Bool
  calls : Nat

/-- Lookup of the entry holding the player1 role (player1Data of the game
loop trigger). -/
def player1Entry (players : List (String × Player)) : Option (String × Player) :=
  players.find? (fun q => q.2.role == "player1")

/-- Lookup of the entry holding the winning role (winnerData of the game
loop trigger). -/
def winnerEntry (players : List (String × Player)) (w : String) :
    Option (String × Player) :=
  players.find? (fun q => q.2.role == w)

/-- One firing of the settlement trigger by client i (the winner branch of
the game loop of components/Game.tsx): the call happens only when a winner
and a room id exist, neither the shared flag nor the local latch is set, the
client's own address matches player1's address case-insensitively, and the
winner role resolves to an address. The latch is set before the call and is
never reset; the shared flag is published only when the call succeeds. -/
def triggerStep (players : List (String × Player)) (w : Option String)
    (rid : Option String) (addrs : List String) (sys : FinishSystem)
    (i : Nat) (out : FinishOutcome) : FinishSystem :=
  match addrs.get? i with
  | none => sys
  | some a =>
    match w with
    | none => sys
    | some wRole =>
      if rid.isSome && !sys.sharedFinished && !sys.latch i then
        match player1Entry players with
        | none => sys
        | some pd =>
          if lowerAddr pd.1 == lowerAddr a then
            match winnerEntry players wRole with
            | none => sys
            | some _ =>
              { latch := fun j => if j = i then true else sys.latch j,
                sharedFinished :=
                  match out with
                  | .success => true
                  | .failure => sys.sharedFinished,
                calls := sys.calls + 1 }
          else sys
      else sys

/-- Run a whole interleaving of trigger firings (client index paired with
the outcome of its contract call, in observation order). -/
def runTrace (players : List (String × Player)) (w : Option String)
    (rid : Option String) (addrs : List String) (sys : FinishSystem) :
    List (Nat × FinishOutcome) → FinishSystem
  | [] => sys
  | (i, out) :: rest =>
      runTrace players w rid addrs (triggerStep players w rid addrs sys i out) rest

/-- All latches clear, nothing published, no call issued yet. -/
def initSystem : FinishSystem :=
  { latch := fun _ => false, sharedFinished := false, calls := 0 }

/-- Client i is the settlement authority: its address matches the address
holding the player1 role, case-insensitively. -/
def isAuthority (players : List (String × Player)) (addrs : List String)
    (i : Nat) : Prop :=
  ∃ a pd, addrs.get? i = some a ∧ player1Entry players = some pd ∧
    lowerAddr pd.1 = lowerAddr a

/-- State of the BlockchainService singleton relevant to finishGame. -/
structure SvcState where
  isInitialized : Bool
  finishedGames : List String
deriving DecidableEq, Repr

/-- Result of one BlockchainService.finishGame call. -/
inductive SvcFinishResult
  | errNotInitialized
  | skippedAlreadyFinished
  | confirmed
  | errTxFailed
deriving DecidableEq, Repr

/-- Observable effect of one BlockchainService.finishGame call: the service
state afterwards, the control-flow result, and whether the contract method
was actually invoked. -/
structure SvcFinishOut where
  state : SvcState
  result : SvcFinishResult
  contractInvoked : Bool
deriving DecidableEq, Repr

/-- BlockchainService.finishGame: throw when uninitialized; return early
without any contract call when the room is already in finishedGames; else
invoke the contract, and only after the transaction confirms add the room
to finishedGames. A failed transaction rethrows and leaves the set
unchanged. -/
def svcFinishGame (s : SvcState) (rid : String) (txOk : Bool) : SvcFinishOut :=
  if !s.isInitialized then
    { state := s, result := .errNotInitialized, contractInvoked := false }
  else if s.finishedGames.contains rid then
    { state := s, result := .skippedAlreadyFinished, contractInvoked := false }
  else if txOk then
    { state := { s with finishedGames := rid :: s.finishedGames },
      result := .confirmed, contractInvoked := true }
  else
    { state := s, result := .errTxFailed, contractInvoked := true }

/-- Rope positions reachable during play: the mount reset to center, any
number of game-loop ticks from a reachable position (with arbitrary flag
writes in between, covered by quantifying over the surrounding state), and
the final positions written by handleWin. -/
inductive ReachablePos : ℚ → Prop
  | init : ReachablePos 600
  | tick (s : GameState) (lastU now : Int) : ReachablePos s.ropePosition →
      ReachablePos ((gameTick { state := s, lastUpdate := lastU } now).state.ropePosition)
  | winReset (w : String) : ReachablePos (handleWinFinalRopePosition w)

/-- State in which both players pulled within the same tick. -/
def bothPullingState : GameState :=
  { initialState (some "room") with
    isStarted := true, player1Pulling := true, player2Pulling := true }

/-- Playing state with the rope at a given position and an unanswered
player1 pull pending. -/
def pullState (pos : ℚ) : GameState :=
  { initialState (some "room") with
    isStarted := true, ropePosition := pos, player1Pulling := true }

/-- Rope position after n resolved, unanswered player1 pulls starting from
the center, each resolved by one game-loop tick with the debounce passed. -/
def afterPulls : Nat → ℚ
  | 0 => 600
  | n + 1 =>
      (gameTick { state := pullState (afterPulls n), lastUpdate := 0 } 100).state.ropePosition

/-- State about to take the last countdown tick, with stale rope position,
pulling flag and winner left over from a previous round. -/
def countdownEndState : GameState :=
  { initialState (some "room") with
    ropePosition := 700, player1Pulling := true, winner := some "player2",
    countdown := some 1, isCountingDown := true }

/-- C2 counterexample: a debounced tick (here 30ms after the last write,
below the 50ms minimum) with exactly one pulling flag set performs no write
at all, leaving the rope position at 600 instead of moving it by
pullForce = 10, so the unconditional per-tick movement claim fails. -/
theorem c2_counterexample :
    (pullState 600).player1Pulling = true ∧
    (pullState 600).player2Pulling = false ∧
    (gameTick { state := pullState 600, lastUpdate := 0 } 30).state.ropePosition = 600 := by
  refine ⟨rfl, rfl, ?_⟩
  norm_num [gameTick, pullState, initialState, shouldUpdateFlag, movedPosition,
    tickWinner, winDistance, centerX, maxDistance, pullForce]

/-- C2 amended: on a resolution tick whose write-back is not debounced (at
least 50ms since the loop's last write), exactly one pulling flag set moves
the rope by pullForce = 10 toward that player's side clamped to the
interval from centerX - maxDistance = 250 to centerX + maxDistance = 950;
equal flags (both or neither pulling) leave the rope position unchanged on
every tick; and a debounced tick (less than 50ms since the last write)
performs no write at all, leaving the whole frame unchanged even when
exactly one flag is set. -/
theorem c2_tick_movement (s : GameState) (lastU now : Int) :
    (50 ≤ now - lastU → s.player1Pulling = true → s.player2Pulling = false →
      (gameTick { state := s, lastUpdate := lastU } now).state.ropePosition =
        max (centerX - maxDistance) (s.ropePosition - pullForce)) ∧
    (50 ≤ now - lastU → s.player1Pulling = false → s.player2Pulling = true →
      (gameTick { state := s, lastUpdate := lastU } now).state.ropePosition =
        min (centerX + maxDistance) (s.ropePosition + pullForce)) ∧
    (s.player1Pulling = s.player2Pulling →
      (gameTick { state := s, lastUpdate := lastU } now).state.ropePosition =
        s.ropePosition) ∧
    (now - lastU < 50 →
      gameTick { state := s, lastUpdate := lastU } now =
        { state := s, lastUpdate := lastU }) ∧
    centerX - maxDistance = 250 ∧ centerX + maxDistance = 950 ∧ pullForce = 10 := by
  refine ⟨?_, ?_, ?_, ?_, by norm_num [centerX, maxDistance],
    by norm_num [centerX, maxDistance], by norm_num [pullForce]⟩
  · intro hdb h1 h2
    have hnd : ¬ (now - lastU < 50) := by omega
    simp [gameTick, shouldUpdateFlag, movedPosition, h1, h2, hnd]
  · intro hdb h1 h2
    have hnd : ¬ (now - lastU < 50) := by omega
    simp [gameTick, shouldUpdateFlag, movedPosition, h1, h2, hnd]
  · intro h12
    have hmv : movedPosition s.player1Pulling s.player2Pulling s.ropePosition =
        s.ropePosition := by
      cases hb : s.player1Pulling <;> rw [hb] at h12 <;>
        simp [movedPosition, hb, ← h12]
    simp only [gameTick, hmv]
    split
    · split
      · rfl
      · rfl
    · rfl
  · intro hlt
    simp only [gameTick]
    split_ifs with h1
    · rfl
    · rfl

/-- Witness for c2_tick_movement: a concrete non-debounced moving tick and
a concrete debounced tick that changes nothing. -/
theorem c2_tick_movement_witness :
    (gameTick { state := pullState 600, lastUpdate := 0 } 100).state.ropePosition =
      max (centerX - maxDistance) ((600 : ℚ) - pullForce) ∧
    gameTick { state := pullState 600, lastUpdate := 70 } 100 =
      { state := pullState 600, lastUpdate := 70 } :=
  ⟨(c2_tick_movement (pullState 600) 0 100).1 (by norm_num) rfl rfl,
   (c2_tick_movement (pullState 600) 70 100).2.2.2.1 (by norm_num)⟩

/-- C4 counterexample: a tick in which both players pulled (rope at center,
no winner possible, debounce long passed) performs no write-back at all, so
both pulling flags are still true after the tick, contradicting the claim
that every resolution tick clears both flags. -/
theorem c4_counterexample :
    (gameTick { state := bothPullingState, lastUpdate := 0 } 1000).state.player1Pulling = true ∧
    (gameTick { state := bothPullingState, lastUpdate := 0 } 1000).state.player2Pulling = true := by
  constructor <;>
    norm_num [gameTick, bothPullingState, initialState, shouldUpdateFlag,
      movedPosition, tickWinner, winDistance, maxDistance, centerX, pullForce]

/-- C4 amended: a resolution tick clears both pulling flags exactly when it
performs a write-back, which requires that exactly one flag is set or a
winner is detected, and that at least 50ms have passed since the last write;
a tick with both or neither flag set and no winner detected writes nothing
and leaves the whole frame, including the flags, unchanged. -/
theorem c4_flags_cleared_on_writeback (s : GameState) (lastU now : Int)
    (hdb : 50 ≤ now - lastU) :
    ((s.player1Pulling ≠ s.player2Pulling ∨
        (tickWinner (movedPosition s.player1Pulling s.player2Pulling
          s.ropePosition)).isSome = true) →
      (gameTick { state := s, lastUpdate := lastU } now).state.player1Pulling = false ∧
      (gameTick { state := s, lastUpdate := lastU } now).state.player2Pulling = false) ∧
    ((s.player1Pulling = s.player2Pulling ∧
        (tickWinner (movedPosition s.player1Pulling s.player2Pulling
          s.ropePosition)).isSome = false) →
      gameTick { state := s, lastUpdate := lastU } now =
        { state := s, lastUpdate := lastU }) := by
  have hnd : ¬ (now - lastU < 50) := by omega
  constructor
  · intro hact
    have hcond : (shouldUpdateFlag s.player1Pulling s.player2Pulling ||
        (tickWinner (movedPosition s.player1Pulling s.player2Pulling
          s.ropePosition)).isSome) = true := by
      rcases hact with h | h
      · cases hb1 : s.player1Pulling <;> cases hb2 : s.player2Pulling <;>
          rw [hb1, hb2] at h <;> simp_all [shouldUpdateFlag]
      · simp [h]
    constructor <;>
      · simp only [gameTick, hcond, if_true, if_neg hnd]
  · intro hno
    have hcond : (shouldUpdateFlag s.player1Pulling s.player2Pulling ||
        (tickWinner (movedPosition s.player1Pulling s.player2Pulling
          s.ropePosition)).isSome) = false := by
      rcases hno with ⟨h12, hw⟩
      cases hb : s.player1Pulling <;> rw [hb] at h12 <;>
        simp_all [shouldUpdateFlag]
    simp only [gameTick, hcond]
    rfl

/-- Witness for c4_flags_cleared_on_writeback at a concrete tick with only
player1 pulling. -/
theorem c4_flags_cleared_on_writeback_witness :
    (gameTick { state := pullState 600, lastUpdate := 0 } 100).state.player1Pulling = false ∧
    (gameTick { state := pullState 600, lastUpdate := 0 } 100).state.player2Pulling = false :=
  (c4_flags_cleared_on_writeback (pullState 600) 0 100 (by norm_num)).1
    (Or.inl (by decide))

/-- C5: when the 60-second timer expires, handleTimeUp declares player1 the
winner whenever the rope's signed distance from center is at most 0 and
player2 otherwise; in particular the rope exactly at center resolves to
player1. -/
theorem c5_timeup_winner (pos : ℚ) :
    (pos - centerX ≤ 0 → (handleTimeUpUpdate pos).winner = some (some "player1")) ∧
    (0 < pos - centerX → (handleTimeUpUpdate pos).winner = some (some "player2")) ∧
    (handleTimeUpUpdate centerX).winner = some (some "player1") := by
  refine ⟨?_, ?_, ?_⟩
  · intro h
    simp [handleTimeUpUpdate, handleTimeUpWinner, h]
  · intro h
    simp [handleTimeUpUpdate, handleTimeUpWinner, not_le.mpr h]
  · simp [handleTimeUpUpdate, handleTimeUpWinner]

/-- Witness for c5_timeup_winner with the rope exactly at center. -/
theorem c5_timeup_winner_witness :
    (handleTimeUpUpdate 600).winner = some (some "player1") :=
  (c5_timeup_winner 600).1 (by norm_num [centerX])

/-- C7 counterexample: the final countdown tick starts the game, but it does
not reset the rope position to 600, does not clear the pulling flags and
does not clear the winner; stale values survive into the Playing phase. -/
theorem c7_counterexample :
    (countdownTick countdownEndState).isStarted = true ∧
    (countdownTick countdownEndState).isCountingDown = false ∧
    (countdownTick countdownEndState).countdown = none ∧
    (countdownTick countdownEndState).ropePosition = 700 ∧
    (countdownTick countdownEndState).player1Pulling = true ∧
    (countdownTick countdownEndState).winner = some "player2" := by
  refine ⟨?_, ?_, ?_, ?_, ?_, ?_⟩ <;>
    simp [countdownTick, countdownEndState, initialState, jsCountdownOrThree]

/-- C7 amended: the start action sets countdown = 3, isCountingDown = true
and isStarted = false; each 1-second tick decrements a positive countdown;
and when the countdown reaches 0 the transition to Playing clears the
countdown and sets isCountingDown = false and isStarted = true, while
leaving ropePosition, both pulling flags and winner unchanged (the rope is
reset to the center 600 by a separate effect when the Game component
mounts, not by this transition). -/
theorem c7_countdown_transition (s : GameState) (c : Int) :
    (handleStartGame s).countdown = some 3 ∧
    (handleStartGame s).isCountingDown = true ∧
    (handleStartGame s).isStarted = false ∧
    (s.countdown = some c → 1 < c →
      countdownTick s = { s with countdown := some (c - 1) }) ∧
    (s.countdown = some c → 0 < c → c ≤ 1 →
      (countdownTick s).isStarted = true ∧
      (countdownTick s).isCountingDown = false ∧
      (countdownTick s).countdown = none ∧
      (countdownTick s).ropePosition = s.ropePosition ∧
      (countdownTick s).player1Pulling = s.player1Pulling ∧
      (countdownTick s).player2Pulling = s.player2Pulling ∧
      (countdownTick s).winner = s.winner) := by
  refine ⟨rfl, rfl, rfl, ?_, ?_⟩
  · intro hc hlt
    have hne : c ≠ 0 := by omega
    have hpos : ¬ (c - 1 ≤ 0) := by omega
    simp [countdownTick, jsCountdownOrThree, hc, hne, hpos]
  · intro hc hpos hle
    have hc1 : c = 1 := by omega
    subst hc1
    refine ⟨?_, ?_, ?_, ?_, ?_, ?_, ?_⟩ <;>
      simp [countdownTick, jsCountdownOrThree, hc]

/-- Witness for c7_countdown_transition at the first and the last countdown
tick. -/
theorem c7_countdown_transition_witness :
    countdownTick { initialState none with countdown := some 3 } =
      { initialState none with countdown := some 2 } ∧
    (countdownTick { initialState none with countdown := some 1 }).isStarted = true :=
  ⟨(c7_countdown_transition { initialState none with countdown := some 3 } 3).2.2.2.1
      rfl (by norm_num),
   ((c7_countdown_transition { initialState none with countdown := some 1 } 1).2.2.2.2
      rfl (by norm_num) (by norm_num)).1⟩

/-- One game-loop tick with an unanswered player1 pull moves the rope to
max 250 (pos - 10). -/
theorem pullTick_ropePosition (pos : ℚ) :
    (gameTick { state := pullState pos, lastUpdate := 0 } 100).state.ropePosition =
      max 250 (pos - 10) := by
  norm_num [gameTick, pullState, initialState, shouldUpdateFlag, movedPosition,
    centerX, maxDistance, pullForce]

/-- Closed form of the unanswered player1 pull scenario: up to 35 pulls, the
n-th resolved pull leaves the rope at 600 - 10n. -/
theorem afterPulls_closed : ∀ n : Nat, n ≤ 35 → afterPulls n = 600 - 10 * n := by
  intro n
  induction n with
  | zero => intro _; simp [afterPulls]
  | succ k ih =>
    intro hle
    have hk : k ≤ 34 := by omega
    have hv := ih (by omega)
    show (gameTick { state := pullState (afterPulls k), lastUpdate := 0 } 100).state.ropePosition = _
    rw [pullTick_ropePosition, hv]
    have hkq : (k : ℚ) ≤ 34 := by exact_mod_cast hk
    rw [max_eq_right (by linarith)]
    push_cast
    ring

/-- C9 counterexample: after 30 resolved unanswered player1 pulls from the
center the rope is at 300, and the game loop already declares player1 the
winner on that 30th pull (300 is at or below the boundary 302.5), so no
31st pull is needed, contradicting the claim that no winner is declared at
position 300. -/
theorem c9_counterexample :
    afterPulls 30 = 300 ∧
    (gameTick { state := pullState (afterPulls 29), lastUpdate := 0 } 100).state.winner =
      some "player1" := by
  have h29 : afterPulls 29 = 310 := by
    rw [afterPulls_closed 29 (by norm_num)]; norm_num
  have h30 : afterPulls 30 = 300 := by
    rw [afterPulls_closed 30 (by norm_num)]; norm_num
  refine ⟨h30, ?_⟩
  rw [h29]
  norm_num [gameTick, pullState, initialState, shouldUpdateFlag, movedPosition,
    tickWinner, winDistance, centerX, maxDistance, pullForce]

/-- C9 amended: starting from 600 with only player1 pulling, the 29th
resolved pull leaves the rope at 310 with no winner declared; the 30th
resolved pull moves it to 300, which is at or below the player1 win
boundary 600 - 297.5 = 302.5, so winner = player1 is declared on the 30th
resolved pull. -/
theorem c9_pull_scenario :
    afterPulls 29 = 310 ∧
    (gameTick { state := pullState (afterPulls 28), lastUpdate := 0 } 100).state.winner = none ∧
    afterPulls 30 = 300 ∧
    (gameTick { state := pullState (afterPulls 29), lastUpdate := 0 } 100).state.ropePosition = 300 ∧
    (gameTick { state := pullState (afterPulls 29), lastUpdate := 0 } 100).state.winner =
      some "player1" := by
  have h28 : afterPulls 28 = 320 := by
    rw [afterPulls_closed 28 (by norm_num)]; norm_num
  have h29 : afterPulls 29 = 310 := by
    rw [afterPulls_closed 29 (by norm_num)]; norm_num
  have h30 : afterPulls 30 = 300 := by
    rw [afterPulls_closed 30 (by norm_num)]; norm_num
  refine ⟨h29, ?_, h30, ?_, ?_⟩ <;> [rw [h28]; rw [h29]; rw [h29]] <;>
    norm_num [gameTick, pullState, initialState, shouldUpdateFlag, movedPosition,
      tickWinner, winDistance, centerX, maxDistance, pullForce]

/-- C10: on an initialized service, finishGame returns without invoking the
contract when the room is already in finishedGames; otherwise the contract
is invoked, the room joins finishedGames only once the transaction
confirms, and on failure the service state is unchanged so a manual retry
re-invokes the contract. -/
theorem c10_finishGame_guard (s : SvcState) (room : String) (txOk : Bool)
    (hinit : s.isInitialized = true) :
    (s.finishedGames.contains room = true →
      svcFinishGame s room txOk =
        { state := s, result := .skippedAlreadyFinished, contractInvoked := false }) ∧
    (s.finishedGames.contains room = false →
      (svcFinishGame s room txOk).contractInvoked = true ∧
      (txOk = true →
        (svcFinishGame s room txOk).state.finishedGames.contains room = true) ∧
      (txOk = false →
        (svcFinishGame s room txOk).state = s ∧
        (svcFinishGame (svcFinishGame s room txOk).state room true).contractInvoked = true)) := by
  refine ⟨?_, ?_⟩
  · intro hmem
    have hm : room ∈ s.finishedGames := by simpa using hmem
    simp [svcFinishGame, hinit, hm]
  · intro hmem
    have hm : room ∉ s.finishedGames := by simpa using hmem
    refine ⟨?_, ?_, ?_⟩
    · cases txOk <;> simp [svcFinishGame, hinit, hm]
    · intro ht
      subst ht
      simp [svcFinishGame, hinit, hm]
    · intro ht
      subst ht
      simp [svcFinishGame, hinit, hm]

/-- Witness for c10_finishGame_guard: a duplicate call is skipped, and a
failed call leaves the contract re-invocable. -/
theorem c10_finishGame_guard_witness :
    svcFinishGame { isInitialized := true, finishedGames := ["r"] } "r" true =
      { state := { isInitialized := true, finishedGames := ["r"] },
        result := .skippedAlreadyFinished, contractInvoked := false } ∧
    (svcFinishGame { isInitialized := true, finishedGames := [] } "r" false).contractInvoked = true :=
  ⟨(c10_finishGame_guard { isInitialized := true, finishedGames := ["r"] } "r" true rfl).1
      (by decide),
   ((c10_finishGame_guard { isInitialized := true, finishedGames := [] } "r" false rfl).2
      (by decide)).1⟩

/-- C8 counterexample: the keypress handler of player1 emits an update whose
player2Pulling field is false, which when merged overwrites a true shared
flag with false; and the renderer is not limited to flag sets: handleTimeUp
emits a winner write together with clearing both flags, and handleWin emits
a ropePosition write, so the resolution loop is not the sole writer of
position, winner and flag-clearing. -/
theorem c8_counterexample :
    (handlePull "player1" { player1Pulling := false, player2Pulling := false } false).1 =
      some { player1Pulling := some true, player2Pulling := some false } ∧
    (applyUpdate { initialState (some "r") with player2Pulling := true }
      { player1Pulling := some true, player2Pulling := some false }).player2Pulling = false ∧
    (handleTimeUpUpdate 700).winner = some (some "player2") ∧
    (handleWinUpdate "player1").ropePosition = some 300 ∧
    (handleWinUpdate "player1").winner = some (some "player1") := by
  refine ⟨rfl, rfl, ?_, ?_, rfl⟩
  · norm_num [handleTimeUpUpdate, handleTimeUpWinner, centerX]
  · simp [handleWinUpdate, handleWinFinalRopePosition]

/-- C8 amended: every update the input handler handlePull emits touches only
the two pulling-flag fields (never ropePosition, winner, isStarted,
countdown or isCountingDown) and sets the local player's own flag to true,
though it also carries the other flag's local false value; in addition the
renderer writes winner and clears both flags in handleTimeUp and writes
ropePosition and winner in handleWin, so the resolution loop is not the
sole writer of position, winner and flag-clearing. -/
theorem c8_renderer_writes (role : String) (loc : PullLocal) (throttled : Bool)
    (u : GameUpdate) (loc2 : PullLocal) (pos : ℚ) (w : String)
    (h : handlePull role loc throttled = (some u, loc2)) :
    (u.ropePosition = none ∧ u.winner = none ∧ u.isStarted = none ∧
      u.countdown = none ∧ u.isCountingDown = none) ∧
    (role = "player1" → u.player1Pulling = some true) ∧
    (role = "player2" → u.player2Pulling = some true) ∧
    ((handleTimeUpUpdate pos).winner ≠ none ∧
      (handleTimeUpUpdate pos).player1Pulling = some false ∧
      (handleTimeUpUpdate pos).player2Pulling = some false) ∧
    ((handleWinUpdate w).ropePosition ≠ none ∧
      (handleWinUpdate w).winner = some (some w)) := by
  simp only [handlePull] at h
  split_ifs at h with h1 h2 h3 h4 h5
  · simp at h
  · simp at h
  · simp at h
  · rw [Prod.ext_iff] at h
    have hu := Option.some.inj h.1
    have hrole : role = "player1" := by simpa using h4
    refine ⟨?_, ?_, ?_, ⟨by simp [handleTimeUpUpdate], rfl, rfl⟩,
      ⟨by simp [handleWinUpdate], rfl⟩⟩
    · rw [← hu]
      exact ⟨rfl, rfl, rfl, rfl, rfl⟩
    · intro hr
      simp [← hu]
    · intro hr
      rw [hrole] at hr
      simp at hr
  · rw [Prod.ext_iff] at h
    have hu := Option.some.inj h.1
    have hrole1 : role ≠ "player1" := by simpa using h4
    refine ⟨?_, ?_, ?_, ⟨by simp [handleTimeUpUpdate], rfl, rfl⟩,
      ⟨by simp [handleWinUpdate], rfl⟩⟩
    · rw [← hu]
      exact ⟨rfl, rfl, rfl, rfl, rfl⟩
    · intro hr
      exact absurd hr hrole1
    · intro hr
      simp [← hu]
  · rw [Prod.ext_iff] at h
    have hu := Option.some.inj h.1
    have hrole1 : role ≠ "player1" := by simpa using h4
    have hrole2 : role ≠ "player2" := by simpa using h5
    refine ⟨?_, ?_, ?_, ⟨by simp [handleTimeUpUpdate], rfl, rfl⟩,
      ⟨by simp [handleWinUpdate], rfl⟩⟩
    · rw [← hu]
      exact ⟨rfl, rfl, rfl, rfl, rfl⟩
    · intro hr
      exact absurd hr hrole1
    · intro hr
      exact absurd hr hrole2

/-- Witness for c8_renderer_writes at a concrete player1 keypress. -/
theorem c8_renderer_writes_witness :
    (handleTimeUpUpdate 600).winner ≠ none ∧
    some { player1Pulling := some true, player2Pulling := some false : GameUpdate } =
      some { player1Pulling := some true, player2Pulling := some false : GameUpdate } :=
  ⟨((c8_renderer_writes "player1" { player1Pulling := false, player2Pulling := false }
      false { player1Pulling := some true, player2Pulling := some false }
      { player1Pulling := false, player2Pulling := false } 600 "player1"
      rfl).2.2.2.1).1, rfl⟩

/-- Room with both roles taken, used in the join witnesses. -/
def fullRoomState : GameState :=
  { initialState (some "r") with
    players := [("0xA", { role := "player1", isReady := true }),
                ("0xB", { role := "player2", isReady := true })] }

/-- C6: joining an empty room assigns player1; joining a room holding
exactly one player with role player1 (under a different address) assigns
player2; a join while some player already holds player2 is rejected as
room-full with no state mutation; and a join with an address already
present (case-insensitively) is a no-op. -/
theorem c6_join_assignment (s : GameState) (addr : String) (rid : Option String) :
    (s.players = [] →
      (handlePlayerJoin s addr rid).2 = JoinOutcome.joinedAsPlayer1 ∧
      (handlePlayerJoin s addr rid).1.players =
        [(addr, { role := "player1", isReady := false })]) ∧
    (∀ a q, s.players = [(a, q)] → q.role = "player1" →
      lowerAddr a ≠ lowerAddr addr →
      (handlePlayerJoin s addr rid).2 = JoinOutcome.joinedAsPlayer2 ∧
      (handlePlayerJoin s addr rid).1.players =
        [(a, q), (addr, { role := "player2", isReady := false })]) ∧
    (findPlayerByAddress s.players addr = none → hasPlayer2 s.players = true →
      handlePlayerJoin s addr rid = (s, JoinOutcome.rejectedRoomFull)) ∧
    (∀ r, findPlayerByAddress s.players addr = some r →
      handlePlayerJoin s addr rid = (s, JoinOutcome.alreadyPresent)) := by
  refine ⟨?_, ?_, ?_, ?_⟩
  · intro hps
    constructor <;>
      simp [handlePlayerJoin, findPlayerByAddress, hps, recordSet]
  · intro a q hps hq hne
    have hbeq : (lowerAddr a == lowerAddr addr) = false := beq_eq_false_iff_ne.mpr hne
    have hne2 : a ≠ addr := fun he => hne (by rw [he])
    have hbeq2 : (a == addr) = false := beq_eq_false_iff_ne.mpr hne2
    constructor <;>
      simp [handlePlayerJoin, findPlayerByAddress, hasPlayer2, recordSet,
        hps, hq, hbeq, hbeq2]
  · intro hf h2
    have hlen : 0 < s.players.length := by
      cases hps : s.players with
      | nil => rw [hps] at h2; simp [hasPlayer2] at h2
      | cons x xs => simp
    simp [handlePlayerJoin, hf, h2, hlen]
  · intro r hf
    simp [handlePlayerJoin, hf]

/-- Witness for c6_join_assignment: first join of an empty room, a rejected
join of a full room, and an idempotent rejoin differing only in case. -/
theorem c6_join_assignment_witness :
    (handlePlayerJoin (initialState (some "r")) "0xA" (some "r")).2 =
      JoinOutcome.joinedAsPlayer1 ∧
    handlePlayerJoin fullRoomState "0xC" (some "r") =
      (fullRoomState, JoinOutcome.rejectedRoomFull) ∧
    handlePlayerJoin fullRoomState "0xa" (some "r") =
      (fullRoomState, JoinOutcome.alreadyPresent) :=
  ⟨((c6_join_assignment (initialState (some "r")) "0xA" (some "r")).1 rfl).1,
   (c6_join_assignment fullRoomState "0xC" (some "r")).2.2.1 rfl rfl,
   (c6_join_assignment fullRoomState "0xa" (some "r")).2.2.2
     ("0xA", { role := "player1", isReady := true }) rfl⟩

/-- The movement step keeps the rope inside the clamp interval. -/
theorem movedPosition_mem (p1 p2 : Bool) (pos : ℚ)
    (h1 : 250 ≤ pos) (h2 : pos ≤ 950) :
    250 ≤ movedPosition p1 p2 pos ∧ movedPosition p1 p2 pos ≤ 950 := by
  have e1 : movedPosition true false pos = max 250 (pos - 10) := by
    norm_num [movedPosition, centerX, maxDistance, pullForce]
  have e2 : movedPosition false true pos = min 950 (pos + 10) := by
    norm_num [movedPosition, centerX, maxDistance, pullForce]
  have e3 : movedPosition false false pos = pos := by simp [movedPosition]
  have e4 : movedPosition true true pos = pos := by simp [movedPosition]
  cases p1 <;> cases p2
  · rw [e3]
    exact ⟨h1, h2⟩
  · rw [e2]
    exact ⟨le_min (by norm_num) (by linarith), min_le_left _ _⟩
  · rw [e1]
    exact ⟨le_max_left _ _, max_le (by norm_num) (by linarith)⟩
  · rw [e4]
    exact ⟨h1, h2⟩

/-- A game-loop tick either leaves the rope position unchanged or writes
the movement step's output. -/
theorem gameTick_ropePosition_cases (f : LoopFrame) (now : Int) :
    (gameTick f now).state.ropePosition = f.state.ropePosition ∨
    (gameTick f now).state.ropePosition =
      movedPosition f.state.player1Pulling f.state.player2Pulling
        f.state.ropePosition := by
  simp only [gameTick]
  split
  · split
    · exact Or.inl rfl
    · exact Or.inr rfl
  · exact Or.inl rfl

/-- C3: every reachable rope position, including the position after every
resolution tick, lies between centerX - maxDistance = 250 and
centerX + maxDistance = 950. -/
theorem c3_rope_invariant (p : ℚ) (h : ReachablePos p) : 250 ≤ p ∧ p ≤ 950 := by
  induction h with
  | init => norm_num
  | tick s lastU now _ ih =>
    rcases gameTick_ropePosition_cases { state := s, lastUpdate := lastU } now with
      hc | hc <;> rw [hc]
    · exact ih
    · exact movedPosition_mem s.player1Pulling s.player2Pulling s.ropePosition
        ih.1 ih.2
  | winReset w =>
    unfold handleWinFinalRopePosition
    split <;> norm_num

/-- Witness for c3_rope_invariant: the center start position and its
successor under a tick with a pending player1 pull are both in range. -/
theorem c3_rope_invariant_witness :
    250 ≤ (600 : ℚ) ∧ (600 : ℚ) ≤ 950 ∧
    (250 ≤ (gameTick { state := pullState 600, lastUpdate := 0 } 100).state.ropePosition ∧
      (gameTick { state := pullState 600, lastUpdate := 0 } 100).state.ropePosition ≤ 950) :=
  ⟨(c3_rope_invariant 600 ReachablePos.init).1,
   (c3_rope_invariant 600 ReachablePos.init).2,
   c3_rope_invariant _ (ReachablePos.tick (pullState 600) 0 100
     (by rw [show (pullState 600).ropePosition = 600 from rfl]
         exact ReachablePos.init))⟩

/-- Invariant of the settlement trigger across clients: at most one call
was issued, a call forces the latch of every authority client, and only
authority clients ever latch. -/
def FinishInv (players : List (String × Player)) (addrs : List String)
    (sys : FinishSystem) : Prop :=
  sys.calls ≤ 1 ∧
  (1 ≤ sys.calls → ∀ i, isAuthority players addrs i → sys.latch i = true) ∧
  (∀ i, sys.latch i = true → isAuthority players addrs i)

/-- Distinct lower-cased addresses, in indexed form. -/
theorem pairwise_distinct_get (l : List String)
    (h : l.Pairwise (fun a b => lowerAddr a ≠ lowerAddr b)) :
    ∀ i j a b, l.get? i = some a → l.get? j = some b → i ≠ j →
      lowerAddr a ≠ lowerAddr b := by
  induction l with
  | nil => intro i j a b hi; simp at hi
  | cons x xs ih =>
    rw [List.pairwise_cons] at h
    intro i j a b hi hj hij
    match i, j with
    | 0, 0 => exact absurd rfl hij
    | 0, j + 1 =>
      have ha : a = x := by simpa using hi.symm
      have hb : b ∈ xs := List.get?_mem hj
      rw [ha]
      exact h.1 b hb
    | i + 1, 0 =>
      have hb : b = x := by simpa using hj.symm
      have ha : a ∈ xs := List.get?_mem hi
      rw [hb]
      exact (h.1 a ha).symm
    | i + 1, j + 1 =>
      exact ih h.2 i j a b hi hj (by omega)

/-- One trigger firing preserves the settlement invariant. -/
theorem triggerStep_inv (players : List (String × Player)) (w rid : Option String)
    (addrs : List String)
    (hdist : ∀ i j a b, addrs.get? i = some a → addrs.get? j = some b → i ≠ j →
      lowerAddr a ≠ lowerAddr b)
    (sys : FinishSystem) (i : Nat) (out : FinishOutcome)
    (hinv : FinishInv players addrs sys) :
    FinishInv players addrs (triggerStep players w rid addrs sys i out) := by
  obtain ⟨hc1, hc2, hc3⟩ := hinv
  simp only [triggerStep]
  cases hga : addrs.get? i with
  | none => exact ⟨hc1, hc2, hc3⟩
  | some a =>
    cases w with
    | none => exact ⟨hc1, hc2, hc3⟩
    | some wr =>
      dsimp only
      by_cases hguard : (rid.isSome && !sys.sharedFinished && !sys.latch i) = true
      · rw [if_pos hguard]
        cases hp1 : player1Entry players with
        | none => exact ⟨hc1, hc2, hc3⟩
        | some pd =>
          dsimp only
          by_cases hmatch : (lowerAddr pd.1 == lowerAddr a) = true
          · rw [if_pos hmatch]
            cases hwin : winnerEntry players wr with
            | none => exact ⟨hc1, hc2, hc3⟩
            | some wd =>
              dsimp only
              have hlatchF : sys.latch i = false := by
                simp only [Bool.and_eq_true, Bool.not_eq_true'] at hguard
                exact hguard.2
              have heq : lowerAddr pd.1 = lowerAddr a := by simpa using hmatch
              have hauth : isAuthority players addrs i := ⟨a, pd, hga, hp1, heq⟩
              have hc0 : sys.calls = 0 := by
                rcases Nat.eq_zero_or_pos sys.calls with h0 | h0
                · exact h0
                · have := hc2 h0 i hauth
                  rw [this] at hlatchF
                  exact absurd hlatchF (by simp)
              refine ⟨by simp [hc0], ?_, ?_⟩
              · intro _ j hauthj
                obtain ⟨b, pd2, hgb, hp2, heq2⟩ := hauthj
                rw [hp1] at hp2
                have hpd : pd2 = pd := by injection hp2.symm
                rw [hpd] at heq2
                by_cases hji : j = i
                · simp [hji]
                · exact absurd (heq2.symm.trans heq)
                    (hdist j i b a hgb hga hji)
              · intro j hlj
                by_cases hji : j = i
                · rw [hji]
                  exact hauth
                · simp only [hji, if_false] at hlj
                  exact hc3 j hlj
          · rw [if_neg hmatch]
            exact ⟨hc1, hc2, hc3⟩
      · rw [if_neg hguard]
        exact ⟨hc1, hc2, hc3⟩

/-- Running a whole trace of trigger firings preserves the invariant. -/
theorem runTrace_inv (players : List (String × Player)) (w rid : Option String)
    (addrs : List String)
    (hdist : ∀ i j a b, addrs.get? i = some a → addrs.get? j = some b → i ≠ j →
      lowerAddr a ≠ lowerAddr b) :
    ∀ (tr : List (Nat × FinishOutcome)) (sys : FinishSystem),
      FinishInv players addrs sys →
      FinishInv players addrs (runTrace players w rid addrs sys tr) := by
  intro tr
  induction tr with
  | nil => intro sys h; exact h
  | cons p rest ih =>
    intro sys h
    obtain ⟨i, out⟩ := p
    exact ih _ (triggerStep_inv players w rid addrs hdist sys i out h)

/-- The initial system satisfies the invariant. -/
theorem initSystem_inv (players : List (String × Player)) (addrs : List String) :
    FinishInv players addrs initSystem := by
  refine ⟨by simp [initSystem], ?_, ?_⟩
  · intro h
    simp [initSystem] at h
  · intro i h
    simp [initSystem] at h

/-- C1: across any number of observing clients with distinct (lower-cased)
addresses and any interleaving of trigger firings with arbitrary success or
failure outcomes, finishGame is invoked at most once per room, and only a
client whose local address matches the room's player1 ever sets its latch
(and hence ever calls); failures never reset a latch, so no second call is
ever issued. -/
theorem c1_finishGame_at_most_once (players : List (String × Player))
    (w rid : Option String) (addrs : List String)
    (hdist : List.Pairwise (fun a b => lowerAddr a ≠ lowerAddr b) addrs)
    (tr : List (Nat × FinishOutcome)) :
    (runTrace players w rid addrs initSystem tr).calls ≤ 1 ∧
    (∀ i, (runTrace players w rid addrs initSystem tr).latch i = true →
      isAuthority players addrs i) := by
  have hd := pairwise_distinct_get addrs hdist
  have h := runTrace_inv players w rid addrs hd tr initSystem
    (initSystem_inv players addrs)
  exact ⟨h.1, h.2.2⟩

/-- Witness for c1_finishGame_at_most_once: two clients, a failed first
attempt by the authority, then more firings by both clients. -/
theorem c1_finishGame_at_most_once_witness :
    (runTrace [("0xA", { role := "player1", isReady := true }),
               ("0xb", { role := "player2", isReady := true })]
      (some "player1") (some "r") ["0xa", "0xB"] initSystem
      [(0, FinishOutcome.failure), (1, FinishOutcome.success),
       (0, FinishOutcome.success), (0, FinishOutcome.success)]).calls ≤ 1 :=
  (c1_finishGame_at_most_once
    [("0xA", { role := "player1", isReady := true }),
     ("0xb", { role := "player2", isReady := true })]
    (some "player1") (some "r") ["0xa", "0xB"] (by decide)
    [(0, FinishOutcome.failure), (1, FinishOutcome.success),
     (0, FinishOutcome.success), (0, FinishOutcome.success)]).1

end TugWar
